import Mathlib

/-
Formal model of `notai.py`, the single source file of this repository:
a batch automation driver that logs accounts into a game-service HTTP
API, claims daily rewards, completes missions, purchases upgrades, and
runs an auto-tap loop.

Modelling conventions:
* One HTTP exchange is abstracted as an `ApiResponse α`: either the
  exchange completed with a status code and a parsed body of shape `α`,
  or an exception was raised (network error, `raise_for_status` on a
  non-2xx response before the body was inspected, JSON/`KeyError`
  failures while parsing).  Each Python `async def` gateway function is
  translated as a total Lean function from the response(s) it consumes
  to the value it returns, mirroring its `try/except` structure.
* Python integers are unbounded, so counters and click counts are `Int`.
* The auto-play loop is driven by a finite list of per-iteration
  environments (the API's responses); the loop consumes one entry per
  iteration and stops consuming when it returns.  Wall-clock sleeps and
  the time-based periodic boost check (which touches none of the loop's
  tracked state) are outside the model.
* The file content read by `process_accounts` is a `List Char`, so that
  Python's `readlines` / `strip` can be modelled by structural
  recursion.
-/

namespace Notai

/-! ## HTTP exchange model -/

/-- Outcome of one HTTP exchange as seen by a call site: either a
response with its status code and a parsed body of shape `α`, or a
raised exception (transport error, `raise_for_status`, body parsing). -/
inductive ApiResponse (α : Type) where
  | ok (status : Nat) (body : α)
  | exn
deriving DecidableEq

/-- Status codes for which `response.raise_for_status()` does not raise. -/
def is2xx (status : Nat) : Bool :=
  decide (200 ≤ status ∧ status < 300)

/-- A response on which the Python call site lands in an `except` branch:
either an exception was raised directly, or `raise_for_status()` raised
because the status was not 2xx. -/
def apiFailed {α : Type} : ApiResponse α → Bool
  | .exn => true
  | .ok status _ => !is2xx status

/-! ## Constants and request shape (notai.py lines 23–24, 42–47) -/

def BASE_URL : String := "https://api.notai.com"

/-- Header dictionary built by `get_headers(token)` (lines 42–47). -/
structure Headers where
  authorization : String
  accept : String
  userAgent : String
deriving DecidableEq

def get_headers (token : String) : Headers :=
  { authorization := "Bearer " ++ token
  , accept := "*/*"
  , userAgent := "Mozilla/5.0 (Windows NT 10.0; Win64; x64) AppleWebKit/537.36 (KHTML, like Gecko) Chrome/130.0.0.0 Safari/537.36" }

/-! ## Data model (notai.py lines 26–34 and response shapes) -/

/-- `UserStats` dataclass (lines 26–34).  Counters are Python ints. -/
structure UserStats where
  username : String
  initial_level : Option Int
  final_level : Option Int
  damage_upgrades : Int
  limit_upgrades : Int
  missions_completed : Int
  taps_performed : Int
deriving DecidableEq

/-- A fresh `UserStats(username=...)` with the dataclass defaults. -/
def UserStats.init (username : String) : UserStats :=
  ⟨username, none, none, 0, 0, 0, 0⟩

/-- Body of the `/scoreboard/me` response: the nickname when both
`'user'` and `'nickname'` keys are present, otherwise `none`. -/
structure LoginBody where
  nickname : Option String
deriving DecidableEq

/-- One mission entry of the `/missions` listing, the fields read by
`process_missions`. -/
structure Mission where
  id : String
  label : String
  completedPercent : String
deriving DecidableEq

/-- Body of `/mission-activity/{id}`: the `success` flag read by
`complete_mission` (`result.get('success')`). -/
structure CompleteBody where
  success : Bool
deriving DecidableEq

/-- One entry of the `/levels` listing (`levels[-1]['level']` is read). -/
structure LevelEntry where
  level : Int
deriving DecidableEq

/-- One entry of the `/boost/card?filter[type]=CLICKER_BOOSTER` listing. -/
structure TappingUpgrade where
  id : String
  boostType : String
deriving DecidableEq

/-- Body of a successful purchase response (`result['level']`). -/
structure PurchaseBody where
  level : Int
deriving DecidableEq

/-- Body of `/game-clicker/submit`: the two fields the loop reads. -/
structure GameStatus where
  currentClickedCount : Int
  totalClicksLimit : Int
deriving DecidableEq

/-- One entry of `/boost-modification/active`
(`boost['boostModification']['type']` is read). -/
structure ActiveBoost where
  type : String
deriving DecidableEq

/-- One entry of the `/boost-modification` listing. -/
structure Boost where
  id : String
  type : String
  available : Int
deriving DecidableEq

/-! ## Gateway operations (notai.py lines 49–346)

Each function is the translation of the Python function of the same
name: the `try` body applied to the abstracted response, with every
`except` branch returning the logged fallback value. -/

/-- `login` (lines 49–65): `raise_for_status`, then return the nickname
when present; `None` on a missing nickname or any exception. -/
def login (r : ApiResponse LoginBody) : Option String :=
  match r with
  | .exn => none
  | .ok status body => if is2xx status then body.nickname else none

/-- `get_campaign_missions` (lines 67–91): `raise_for_status`, then
`json()['data']`; `[]` on any exception. -/
def get_campaign_missions (r : ApiResponse (List Mission)) : List Mission :=
  match r with
  | .exn => []
  | .ok status missions => if is2xx status then missions else []

/-- `complete_mission` (lines 93–109): `raise_for_status`, then the
truthiness of `result.get('success')`; `False` on any exception. -/
def complete_mission (r : ApiResponse CompleteBody) : Bool :=
  match r with
  | .exn => false
  | .ok status body => if is2xx status then body.success else false

/-- `claim_mission_reward` (lines 111–125): no `raise_for_status`;
`True` exactly on status 201, `False` otherwise or on exception. -/
def claim_mission_reward (r : ApiResponse Unit) : Bool :=
  match r with
  | .exn => false
  | .ok status _ => status == 201

/-- `get_levels` (lines 163–174): the parsed body; `[]` on exception. -/
def get_levels (r : ApiResponse (List LevelEntry)) : List LevelEntry :=
  match r with
  | .exn => []
  | .ok status levels => if is2xx status then levels else []

/-- `get_tapping_upgrades` (lines 176–187): `json()['data']`; `[]` on
any exception. -/
def get_tapping_upgrades (r : ApiResponse (List TappingUpgrade)) : List TappingUpgrade :=
  match r with
  | .exn => []
  | .ok status upgrades => if is2xx status then upgrades else []

/-- `upgrade_level` (lines 189–208): on status 201 record
`user_stats.final_level = result['level']` and return
`(True, result['level'])`; on 402 (insufficient funds), any other
status, or an exception return `(False, None)` with stats untouched. -/
def upgrade_level (r : ApiResponse PurchaseBody) (stats : UserStats) :
    (Bool × Option Int) × UserStats :=
  match r with
  | .exn => ((false, none), stats)
  | .ok status body =>
    if status == 201 then
      ((true, some body.level), { stats with final_level := some body.level })
    else if status == 402 then
      ((false, none), stats)
    else
      ((false, none), stats)

/-- `upgrade_tapping` (lines 210–232): on status 201 increment
`damage_upgrades` when `upgrade_type == "Damage"`, `limit_upgrades`
when `upgrade_type == "Limit energy"`, and return
`(True, result['level'])`; otherwise `(False, None)` with stats
untouched. -/
def upgrade_tapping (upgrade_type : String) (r : ApiResponse PurchaseBody)
    (stats : UserStats) : (Bool × Option Int) × UserStats :=
  match r with
  | .exn => ((false, none), stats)
  | .ok status body =>
    if status == 201 then
      let stats' :=
        if upgrade_type == "Damage" then
          { stats with damage_upgrades := stats.damage_upgrades + 1 }
        else if upgrade_type == "Limit energy" then
          { stats with limit_upgrades := stats.limit_upgrades + 1 }
        else stats
      ((true, some body.level), stats')
    else
      ((false, none), stats)

/-- The POST request sent to `/game-clicker/submit`: url, headers, and
the `clickedCount` field of the JSON payload. -/
structure TapRequest where
  url : String
  headers : Headers
  clickedCount : Int
deriving DecidableEq

/-- `get_game_status` (lines 234–247): POSTs
`{"clickedCount": 0}` to `/game-clicker/submit` ("We're not actually
tapping, just checking status"); `raise_for_status`, then the parsed
status body, `None` on any exception.  Returns the request it sends
paired with its result. -/
def get_game_status (token : String) (r : ApiResponse GameStatus) :
    TapRequest × Option GameStatus :=
  ( { url := BASE_URL ++ "/game-clicker/submit"
    , headers := get_headers token
    , clickedCount := 0 }
  , match r with
    | .exn => none
    | .ok status body => if is2xx status then some body else none )

/-- `perform_tapping` (lines 249–262): POSTs
`{"clickedCount": click_count}` to `/game-clicker/submit` (defaulted to
15 at its only call site); `raise_for_status`, then the parsed result
body, `None` on any exception.  Returns the request it sends paired
with its result. -/
def perform_tapping (token : String) (click_count : Int)
    (r : ApiResponse GameStatus) : TapRequest × Option GameStatus :=
  ( { url := BASE_URL ++ "/game-clicker/submit"
    , headers := get_headers token
    , clickedCount := click_count }
  , match r with
    | .exn => none
    | .ok status body => if is2xx status then some body else none )

/-- `freeze_game` (lines 264–276): `raise_for_status`, then the parsed
result; `None` on any exception. -/
def freeze_game (r : ApiResponse Unit) : Option Unit :=
  match r with
  | .exn => none
  | .ok status body => if is2xx status then some body else none

/-- `get_active_boosts` (lines 278–290): the parsed body; `[]` on any
exception. -/
def get_active_boosts (r : ApiResponse (List ActiveBoost)) : List ActiveBoost :=
  match r with
  | .exn => []
  | .ok status boosts => if is2xx status then boosts else []

/-- `get_boosts` (lines 311–321): `json()['data']`; `[]` on any
exception. -/
def get_boosts (r : ApiResponse (List Boost)) : List Boost :=
  match r with
  | .exn => []
  | .ok status boosts => if is2xx status then boosts else []

/-- `get_refill_boost` (lines 323–326): the first boost of the listing
with `type == 'REFILL_ENERGY'` and `available > 0`, if any. -/
def get_refill_boost (r : ApiResponse (List Boost)) : Option Boost :=
  (get_boosts r).find? (fun b => b.type == "REFILL_ENERGY" && decide (0 < b.available))

/-- `use_refill_boost` (lines 328–346): look up a refill boost; when
none is found, log a warning and return `False` without sending the buy
request; when found, POST the buy request and return `True` on a 2xx
response, `False` on any exception. -/
def use_refill_boost (listR : ApiResponse (List Boost))
    (buyR : ApiResponse Unit) : Bool :=
  match get_refill_boost listR with
  | none => false
  | some _ =>
    match buyR with
    | .exn => false
    | .ok status _ => is2xx status

/-! ## Auto-play loop (notai.py lines 348–409)

`auto_play_game` is an unbounded `while True` loop; each iteration
fetches the game status and, depending on it, attempts a refill,
freezes the game, or taps.  We model one iteration as a function of the
current loop state and of the environment (the API responses this
iteration would observe), and the loop as a recursion over a finite
list of such environments, stopping at the first `return`.  The
periodic `use_available_boosts` call at the top of the loop mutates
none of the tracked state and is outside the model, as are the
`asyncio.sleep` pacing delays. -/

/-- Mutable locals of `auto_play_game` (lines 349–350) together with
the `user_stats` record it updates. -/
structure LoopState where
  tapping_count : Int
  consecutive_failures : Int
  stats : UserStats
deriving DecidableEq

/-- The responses one loop iteration can observe: the result of
`get_game_status`, the result of `use_refill_boost` (consulted only on
the refill branch), and the result of `perform_tapping` (consulted only
on the tap branch). -/
structure IterEnv where
  status : Option GameStatus
  refill : Bool
  tap : Option GameStatus
deriving DecidableEq

/-- Which `return` site of `auto_play_game` ended the loop:
`stoppedFailure` for the two `max_consecutive_failures` exits (lines
365–367 and 400–402), `switchAccount` for the failed-refill exit (lines
382–384), `frozen` for the freeze exit (lines 386–389). -/
inductive Terminal where
  | stoppedFailure
  | switchAccount
  | frozen
deriving DecidableEq

/-- Result of one iteration: loop continues with a new state, or one of
the `return` sites fired. -/
inductive IterOutcome where
  | continueLoop (st : LoopState)
  | stopped (t : Terminal) (st : LoopState)
deriving DecidableEq

/-- State carried by an iteration outcome. -/
def IterOutcome.state : IterOutcome → LoopState
  | .continueLoop st => st
  | .stopped _ st => st

/-- Terminal reason of an iteration outcome, when it stopped. -/
def IterOutcome.terminal : IterOutcome → Option Terminal
  | .continueLoop _ => none
  | .stopped t _ => some t

/-- Which remote helpers (beyond the unconditional status fetch) this
iteration invoked: `use_refill_boost`, `freeze_game`,
`perform_tapping`. -/
structure IterCalls where
  refill : Bool
  freeze : Bool
  tap : Bool
deriving DecidableEq

/-- `max_consecutive_failures = 5` (line 351). -/
def max_consecutive_failures : Int := 5

/-- The guard `current_clicks >= total_limit * refill_threshold` of
line 376 with the default `refill_threshold = 0.875`.  Both operands
are Python ints, `0.875` is exactly `7/8` (an exact binary float, so
`total_limit * 0.875` is computed exactly for every click limit the
service can return), and the comparison is carried out in exact
arithmetic as `7 * total_limit ≤ 8 * current_clicks`; the lemma
`refillCheck_iff_rat` below states the equivalence with the literal
rational inequality. -/
def refillCheck (current_clicks total_limit : Int) : Bool :=
  decide (7 * total_limit ≤ 8 * current_clicks)

/-- One iteration of the `while True` body of `auto_play_game` (lines
355–409), as a function of the loop state and the responses observed:

* status fetch failed (line 363): increment `consecutive_failures`;
  stop when it reached `max_consecutive_failures`, else continue
  (retry) without tapping;
* `current_clicks >= total_limit * refill_threshold` (line 376):
  attempt the refill; on success continue unchanged, on failure stop to
  switch account;
* `current_clicks >= total_limit` (line 386): freeze and stop;
* otherwise tap (line 391): on success add
  `result['currentClickedCount'] - current_clicks` to `tapping_count`
  and `user_stats.taps_performed` and reset `consecutive_failures` to
  0; on failure increment `consecutive_failures`, stopping when it
  reached `max_consecutive_failures`. -/
def auto_play_iter (st : LoopState) (env : IterEnv) : IterOutcome × IterCalls :=
  match env.status with
  | none =>
    if max_consecutive_failures ≤ st.consecutive_failures + 1 then
      (.stopped .stoppedFailure
        { st with consecutive_failures := st.consecutive_failures + 1 },
       ⟨false, false, false⟩)
    else
      (.continueLoop { st with consecutive_failures := st.consecutive_failures + 1 },
       ⟨false, false, false⟩)
  | some status =>
    if refillCheck status.currentClickedCount status.totalClicksLimit then
      if env.refill then
        (.continueLoop st, ⟨true, false, false⟩)
      else
        (.stopped .switchAccount st, ⟨true, false, false⟩)
    else if status.totalClicksLimit ≤ status.currentClickedCount then
      (.stopped .frozen st, ⟨false, true, false⟩)
    else
      match env.tap with
      | some result =>
        (.continueLoop
          { tapping_count :=
              st.tapping_count + (result.currentClickedCount - status.currentClickedCount)
          , consecutive_failures := 0
          , stats :=
              { st.stats with taps_performed :=
                  st.stats.taps_performed
                    + (result.currentClickedCount - status.currentClickedCount) } },
         ⟨false, false, true⟩)
      | none =>
        if max_consecutive_failures ≤ st.consecutive_failures + 1 then
          (.stopped .stoppedFailure
            { st with consecutive_failures := st.consecutive_failures + 1 },
           ⟨false, false, true⟩)
        else
          (.continueLoop { st with consecutive_failures := st.consecutive_failures + 1 },
           ⟨false, false, true⟩)

/-- The `while True` loop of `auto_play_game`, driven by a finite list
of iteration environments: recurse while iterations continue, return
the state and terminal reason at the first `return`, and report no
terminal when the environment list is exhausted first.  Once a
terminal fires, the remaining environments are not consumed: the
function performs no further remote calls. -/
def auto_play_run : LoopState → List IterEnv → LoopState × Option Terminal
  | st, [] => (st, none)
  | st, env :: rest =>
    match (auto_play_iter st env).1 with
    | .continueLoop st' => auto_play_run st' rest
    | .stopped t st' => (st', some t)

/-! ## Mission runner (notai.py lines 127–141) -/

/-- The responses one mission's processing can observe. -/
structure MissionEnv where
  complete : ApiResponse CompleteBody
  claim : ApiResponse Unit
deriving DecidableEq

/-- Which remote calls were sent for one mission. -/
structure MissionCalls where
  completeSent : Bool
  claimSent : Bool
deriving DecidableEq

/-- The body of the `for mission in missions` loop of `process_missions`
(lines 129–141): skip a mission whose `completedPercent` is `"100"`;
otherwise attempt `complete_mission`, on success attempt
`claim_mission_reward`, and on success of both increment
`missions_completed`. -/
def process_missions_step (m : Mission) (env : MissionEnv) (stats : UserStats) :
    MissionCalls × UserStats :=
  if m.completedPercent ≠ "100" then
    if complete_mission env.complete then
      if claim_mission_reward env.claim then
        (⟨true, true⟩,
         { stats with missions_completed := stats.missions_completed + 1 })
      else
        (⟨true, true⟩, stats)
    else
      (⟨true, false⟩, stats)
  else
    (⟨false, false⟩, stats)

/-- `process_missions` over the fetched mission list, one environment
per mission. -/
def process_missions : List (Mission × MissionEnv) → UserStats → UserStats
  | [], stats => stats
  | (m, env) :: rest, stats =>
      process_missions rest (process_missions_step m env stats).2

/-! ## Upgrade runner (notai.py lines 431–462)

The three purchase loops of `process_account` share one shape:
`for i in range(count): success, _ = <purchase>; if not success: break`.
Each is driven by an oracle giving the purchase response of every
attempt; the loop returns the number of successful purchases, the
number of attempts actually made, and the final stats. -/

/-- Whether a purchase response counts as a success (`status == 201`)
for `upgrade_level` and `upgrade_tapping`. -/
def purchase_created : ApiResponse PurchaseBody → Bool
  | .exn => false
  | .ok status _ => status == 201

/-- The `user_stats.final_level = new_level` assignment of line 439,
applied to the `(success, new_level), stats` result of `upgrade_level`. -/
def record_final_level (r : (Bool × Option Int) × UserStats) : UserStats :=
  match r.1.2 with
  | some new_level => { r.2 with final_level := some new_level }
  | none => r.2

/-- The level-upgrade loop of `process_account` (lines 436–442):
starting at attempt index `i` with `remaining` iterations left, attempt
`upgrade_level`; on success record `user_stats.final_level = new_level`
and continue, on failure break.  Returns
(successes, attempts, final stats). -/
def level_loop (oracle : Nat → ApiResponse PurchaseBody) :
    Nat → Nat → UserStats → Nat × Nat × UserStats
  | _, 0, stats => (0, 0, stats)
  | i, remaining + 1, stats =>
    let r := upgrade_level (oracle i) stats
    if r.1.1 then
      let rest := level_loop oracle (i + 1) remaining (record_final_level r)
      (rest.1 + 1, rest.2.1 + 1, rest.2.2)
    else
      (0, 1, r.2)

/-- The two tapping-upgrade loops of `process_account` (lines 450–455
with `upgrade_type = "Damage"`, lines 457–462 with
`upgrade_type = "Limit energy"`): attempt `upgrade_tapping`; on failure
break.  Returns (successes, attempts, final stats). -/
def tapping_loop (upgrade_type : String)
    (oracle : Nat → ApiResponse PurchaseBody) :
    Nat → Nat → UserStats → Nat × Nat × UserStats
  | _, 0, stats => (0, 0, stats)
  | i, remaining + 1, stats =>
    let r := upgrade_tapping upgrade_type (oracle i) stats
    if r.1.1 then
      let rest := tapping_loop upgrade_type oracle (i + 1) remaining r.2
      (rest.1 + 1, rest.2.1 + 1, rest.2.2)
    else
      (0, 1, r.2)

/-! ## Credential file and batch (notai.py lines 485–499) -/

/-- Characters stripped by Python's `str.strip()`. -/
def isPythonSpace (c : Char) : Bool :=
  c == ' ' || c == '\t' || c == '\n' || c == '\r' || c == '\x0b' || c == '\x0c'

/-- Python `token.strip()` on a line, as a character list. -/
def strip (s : List Char) : List Char :=
  ((s.dropWhile isPythonSpace).reverse.dropWhile isPythonSpace).reverse

/-- Python `file.readlines()` on the file content: split into lines,
each line keeping its trailing newline; a final fragment without a
newline is its own line; empty content yields no lines. -/
def readlines : List Char → List (List Char)
  | [] => []
  | c :: rest =>
    if c = '\n' then ['\n'] :: readlines rest
    else
      match readlines rest with
      | [] => [[c]]
      | line :: lines => (c :: line) :: lines

/-- The token extraction of `process_accounts` (lines 485–499): when
`token.txt` is absent (`none`), log and return with no account
processed; otherwise `process_account` is invoked once per element of
`file.readlines()`, in order, with the line passed through `strip`.
The returned list holds the tokens in the order the accounts are
processed. -/
def process_accounts (file : Option (List Char)) : List (List Char) :=
  match file with
  | none => []
  | some content => (readlines content).map strip

/-! ## Remote-call dispatch and the rate limiter (notai.py lines 36–40)

Lines 36–40 define `rate_limited_api_call`, a wrapper decorated with
`@sleep_and_retry` and `@limits(calls=5, period=10)` that would acquire
a permit from a shared 5-calls-per-10-seconds limiter before invoking
the wrapped method.  The table below records, for every remote
operation of the source, whether its dispatch routes through
`rate_limited_api_call`; it is read off the function bodies, each of
which awaits `session.get(...)` or `session.post(...)` directly. -/

/-- The remote operations defined in the source, one constructor per
function that performs HTTP dispatch. -/
inductive RemoteOp where
  | loginOp
  | getCampaignMissionsOp
  | completeMissionOp
  | claimMissionRewardOp
  | claimDailyOp
  | getLevelsOp
  | getTappingUpgradesOp
  | upgradeLevelOp
  | upgradeTappingOp
  | getGameStatusOp
  | performTappingOp
  | freezeGameOp
  | getActiveBoostsOp
  | useBoostOp
  | getBoostsOp
  | useRefillBoostOp
deriving DecidableEq

/-- Whether the operation's HTTP dispatch in the source acquires a
permit from `rate_limited_api_call` before being sent.  Transcribed
from each function body: every operation calls `session.get` /
`session.post` directly, and `rate_limited_api_call` appears at no call
site in the file. -/
def acquiresRateLimiterPermit : RemoteOp → Bool
  | .loginOp => false
  | .getCampaignMissionsOp => false
  | .completeMissionOp => false
  | .claimMissionRewardOp => false
  | .claimDailyOp => false
  | .getLevelsOp => false
  | .getTappingUpgradesOp => false
  | .upgradeLevelOp => false
  | .upgradeTappingOp => false
  | .getGameStatusOp => false
  | .performTappingOp => false
  | .freezeGameOp => false
  | .getActiveBoostsOp => false
  | .useBoostOp => false
  | .getBoostsOp => false
  | .useRefillBoostOp => false

/-! ## Helper lemmas -/

/-- A failed completed exchange has a non-2xx status. -/
theorem apiFailed_ok {α : Type} {status : Nat} {body : α}
    (h : apiFailed (ApiResponse.ok status body) = true) : is2xx status = false := by
  simpa [apiFailed] using h

/-- The Bool returned by `upgrade_tapping` is exactly `purchase_created`
of the response. -/
theorem upgrade_tapping_success (t : String) (r : ApiResponse PurchaseBody)
    (stats : UserStats) :
    (upgrade_tapping t r stats).1.1 = purchase_created r := by
  cases r with
  | exn => rfl
  | ok status body =>
    by_cases h : (status == 201) = true
    · simp [upgrade_tapping, purchase_created, h]
    · simp [upgrade_tapping, purchase_created, h]

/-- The Bool returned by `upgrade_level` is exactly `purchase_created`
of the response. -/
theorem upgrade_level_success (r : ApiResponse PurchaseBody) (stats : UserStats) :
    (upgrade_level r stats).1.1 = purchase_created r := by
  cases r with
  | exn => rfl
  | ok status body =>
    by_cases h : (status == 201) = true
    · simp [upgrade_level, purchase_created, h]
    · by_cases h402 : (status == 402) = true
      · simp [upgrade_level, purchase_created, h, h402]
      · simp [upgrade_level, purchase_created, h, h402]

/-- The guard of line 376 in exact rational terms: `refillCheck` is the
comparison `current_clicks ≥ total_limit * 0.875`. -/
theorem refillCheck_iff_rat (current_clicks total_limit : Int) :
    refillCheck current_clicks total_limit = true
      ↔ ((current_clicks : ℚ) ≥ (total_limit : ℚ) * (0.875 : ℚ)) := by
  rw [refillCheck, decide_eq_true_eq, ge_iff_le,
    show (0.875 : ℚ) = 7 / 8 by norm_num,
    mul_div_assoc', div_le_iff₀ (by norm_num : (0:ℚ) < 8)]
  constructor
  · intro h
    have h2 : total_limit * 7 ≤ current_clicks * 8 := by linarith
    exact_mod_cast h2
  · intro h
    have h2 : total_limit * 7 ≤ current_clicks * 8 := by exact_mod_cast h
    linarith

/-! ## Claims -/

/-- C10: the status fetch is exactly the tap submission specialized to
a click count of 0.  `get_game_status` sends the same POST to
`/game-clicker/submit` with `clickedCount = 0` that `perform_tapping`
sends with its click count, and the two functions agree — request and
result — at click count 0 for every token and response. -/
theorem claim10_status_fetch_is_zero_click_tap :
    ∀ (token : String) (r : ApiResponse GameStatus),
      get_game_status token r = perform_tapping token 0 r := by
  intro token r
  rfl

/-- C9: every gateway operation converts failures at its own call site:
on a raised exception or a `raise_for_status` failure, each listing
operation (missions, levels, tapping upgrades, boosts, active boosts)
returns the empty list, and login / status fetch / tap submission /
freeze return `None`. -/
theorem claim9_failures_converted_at_call_site :
    (∀ r : ApiResponse (List Mission), apiFailed r = true →
        get_campaign_missions r = [])
    ∧ (∀ r : ApiResponse (List LevelEntry), apiFailed r = true →
        get_levels r = [])
    ∧ (∀ r : ApiResponse (List TappingUpgrade), apiFailed r = true →
        get_tapping_upgrades r = [])
    ∧ (∀ r : ApiResponse (List Boost), apiFailed r = true →
        get_boosts r = [])
    ∧ (∀ r : ApiResponse (List ActiveBoost), apiFailed r = true →
        get_active_boosts r = [])
    ∧ (∀ r : ApiResponse LoginBody, apiFailed r = true →
        login r = none)
    ∧ (∀ (token : String) (r : ApiResponse GameStatus), apiFailed r = true →
        (get_game_status token r).2 = none)
    ∧ (∀ (token : String) (click_count : Int) (r : ApiResponse GameStatus),
        apiFailed r = true → (perform_tapping token click_count r).2 = none)
    ∧ (∀ r : ApiResponse Unit, apiFailed r = true →
        freeze_game r = none) := by
  refine ⟨?_, ?_, ?_, ?_, ?_, ?_, ?_, ?_, ?_⟩
  · intro r h
    cases r with
    | exn => rfl
    | ok status body => simp [get_campaign_missions, apiFailed_ok h]
  · intro r h
    cases r with
    | exn => rfl
    | ok status body => simp [get_levels, apiFailed_ok h]
  · intro r h
    cases r with
    | exn => rfl
    | ok status body => simp [get_tapping_upgrades, apiFailed_ok h]
  · intro r h
    cases r with
    | exn => rfl
    | ok status body => simp [get_boosts, apiFailed_ok h]
  · intro r h
    cases r with
    | exn => rfl
    | ok status body => simp [get_active_boosts, apiFailed_ok h]
  · intro r h
    cases r with
    | exn => rfl
    | ok status body => simp [login, apiFailed_ok h]
  · intro token r h
    cases r with
    | exn => rfl
    | ok status body => simp [get_game_status, apiFailed_ok h]
  · intro token c r h
    cases r with
    | exn => rfl
    | ok status body => simp [perform_tapping, apiFailed_ok h]
  · intro r h
    cases r with
    | exn => rfl
    | ok status body => simp [freeze_game, apiFailed_ok h]

/-- Witness for C9: a raised exception on the mission listing yields
the empty list. -/
theorem claim9_witness :
    get_campaign_missions (ApiResponse.exn : ApiResponse (List Mission)) = [] :=
  claim9_failures_converted_at_call_site.1 ApiResponse.exn (by decide)

/-- C1 counterexample: the claim states every remote operation acquires
a permit from the shared rate limiter before dispatch; `perform_tapping`
(like every other operation) dispatches directly without acquiring one. -/
theorem claim1_counterexample :
    acquiresRateLimiterPermit RemoteOp.performTappingOp = false := by
  decide

/-- C1 amended: a shared rate limiter of 5 calls per rolling 10-second
window is defined (`rate_limited_api_call`, lines 36–40), but no remote
operation acquires a permit from it — every operation dispatches its
HTTP call directly, so the cap is not enforced on the program's remote
calls. -/
theorem claim1_amended_no_op_uses_rate_limiter :
    ∀ op : RemoteOp, acquiresRateLimiterPermit op = false := by
  intro op
  cases op <;> rfl

/-- C8 counterexample: for the file content `"abc\n\ndef"`, the batch
processes 3 accounts — one per line, including the empty line, which is
processed with an empty token — while the claim (one account per
non-empty line, empty lines yielding no account) predicts 2. -/
theorem claim8_counterexample :
    (process_accounts (some "abc\n\ndef".data)).length = 3
    ∧ ((readlines "abc\n\ndef".data).filter
        (fun line => !(strip line).isEmpty)).length = 2
    ∧ [] ∈ process_accounts (some "abc\n\ndef".data) := by
  decide

/-- C8 amended: the batch processes exactly one account per line of the
credential file — including empty or whitespace-only lines, which are
processed with an empty token — with each token trimmed of surrounding
whitespace; if the credential file is absent, the batch returns with a
logged message and no account is processed. -/
theorem claim8_amended_one_account_per_line :
    process_accounts none = []
    ∧ (∀ content : List Char,
        process_accounts (some content) = (readlines content).map strip)
    ∧ process_accounts (some "abc\n\ndef".data) = ["abc".data, [], "def".data] := by
  refine ⟨rfl, fun content => rfl, by decide⟩

/-- C6: a mission whose `completedPercent` is `"100"` is sent neither a
complete call nor a claim call and leaves the stats untouched; for any
other mission the complete call is sent, the claim call is sent exactly
when the complete call succeeded, and `missions_completed` grows by 1
when both complete and claim succeed and by 0 when either fails. -/
theorem claim6_mission_complete_claim :
    (∀ (m : Mission) (env : MissionEnv) (stats : UserStats),
        m.completedPercent = "100" →
        process_missions_step m env stats = (⟨false, false⟩, stats))
    ∧ (∀ (m : Mission) (env : MissionEnv) (stats : UserStats),
        m.completedPercent ≠ "100" →
        (process_missions_step m env stats).1.completeSent = true
        ∧ (process_missions_step m env stats).1.claimSent
            = complete_mission env.complete
        ∧ (process_missions_step m env stats).2.missions_completed
            = stats.missions_completed
              + (if complete_mission env.complete
                    && claim_mission_reward env.claim then 1 else 0)) := by
  constructor
  · intro m env stats h
    simp [process_missions_step, h]
  · intro m env stats h
    by_cases hc : complete_mission env.complete = true
    · by_cases hcl : claim_mission_reward env.claim = true
      · simp [process_missions_step, h, hc, hcl]
      · simp only [Bool.not_eq_true] at hcl
        simp [process_missions_step, h, hc, hcl]
    · simp only [Bool.not_eq_true] at hc
      simp [process_missions_step, h, hc]

/-- Witness for C6: a 50%-complete mission whose complete call succeeds
(2xx with `success: true`) and whose claim call returns 201 sends both
calls and increments `missions_completed` by 1. -/
theorem claim6_witness :
    (process_missions_step ⟨"m1", "Daily", "50"⟩
        ⟨.ok 200 ⟨true⟩, .ok 201 ()⟩ (UserStats.init "u")).1.completeSent = true
    ∧ (process_missions_step ⟨"m1", "Daily", "50"⟩
        ⟨.ok 200 ⟨true⟩, .ok 201 ()⟩ (UserStats.init "u")).1.claimSent
        = complete_mission (.ok 200 ⟨true⟩)
    ∧ (process_missions_step ⟨"m1", "Daily", "50"⟩
        ⟨.ok 200 ⟨true⟩, .ok 201 ()⟩ (UserStats.init "u")).2.missions_completed
        = (UserStats.init "u").missions_completed
          + (if complete_mission (.ok 200 ⟨true⟩)
                && claim_mission_reward (.ok 201 ()) then 1 else 0) :=
  claim6_mission_complete_claim.2 ⟨"m1", "Daily", "50"⟩
    ⟨.ok 200 ⟨true⟩, .ok 201 ()⟩ (UserStats.init "u") (by decide)

/-- One auto-play iteration either leaves the stats record untouched,
or (exactly on a successful tap) adds the click-count delta to
`taps_performed`. -/
theorem auto_play_iter_stats_cases (st : LoopState) (env : IterEnv) :
    (auto_play_iter st env).1.state.stats = st.stats
    ∨ ∃ g res : GameStatus, env.status = some g ∧ env.tap = some res
        ∧ (auto_play_iter st env).1.state.stats
            = { st.stats with taps_performed :=
                  st.stats.taps_performed
                    + (res.currentClickedCount - g.currentClickedCount) } := by
  obtain ⟨es, er, et⟩ := env
  cases es with
  | none =>
    left
    by_cases h5 : max_consecutive_failures ≤ st.consecutive_failures + 1 <;>
      simp [auto_play_iter, IterOutcome.state, h5]
  | some g =>
    by_cases hrc : refillCheck g.currentClickedCount g.totalClicksLimit = true
    · left
      cases er <;> simp [auto_play_iter, IterOutcome.state, hrc]
    · by_cases hcap : g.totalClicksLimit ≤ g.currentClickedCount
      · left
        simp [auto_play_iter, IterOutcome.state, hrc, hcap]
      · cases et with
        | none =>
          left
          by_cases h5 : max_consecutive_failures ≤ st.consecutive_failures + 1 <;>
            simp [auto_play_iter, IterOutcome.state, hrc, hcap, h5]
        | some res =>
          right
          exact ⟨g, res, rfl, rfl, by
            simp [auto_play_iter, IterOutcome.state, hrc, hcap]⟩

/-- C2 counterexample: with a successfully fetched status at the hard
cap (`currentClickedCount = 100`, `totalClicksLimit = 100`) the
iteration does not invoke `freeze_game` and does not end in the Frozen
state: it takes the refill branch, stopping to switch accounts when the
refill fails and continuing when it succeeds. -/
theorem claim2_counterexample :
    (auto_play_iter ⟨0, 0, UserStats.init "u"⟩
        ⟨some ⟨100, 100⟩, false, none⟩).2.freeze = false
    ∧ (auto_play_iter ⟨0, 0, UserStats.init "u"⟩
        ⟨some ⟨100, 100⟩, false, none⟩).1.terminal = some Terminal.switchAccount
    ∧ (auto_play_iter ⟨0, 0, UserStats.init "u"⟩
        ⟨some ⟨100, 100⟩, true, none⟩).1.terminal = none := by
  decide

/-- C2 amended: when a successfully fetched status has
`current_clicks >= total_limit` (with a non-negative limit), the
refill-threshold branch fires first (`total_limit * 0.875 ≤
total_limit`), so the iteration attempts a refill, never invokes
`freeze_game`, and either continues (refill success) or stops to switch
account (refill failure); the freeze branch can fire only in the region
`total_limit ≤ current_clicks < total_limit * 0.875`, which is empty
for non-negative values. -/
theorem claim2_amended_cap_takes_refill_branch :
    (∀ (st : LoopState) (env : IterEnv) (g : GameStatus),
        env.status = some g →
        0 ≤ g.totalClicksLimit →
        g.totalClicksLimit ≤ g.currentClickedCount →
        (auto_play_iter st env).2.refill = true
        ∧ (auto_play_iter st env).2.freeze = false
        ∧ (auto_play_iter st env).1
            = (if env.refill then IterOutcome.continueLoop st
               else IterOutcome.stopped Terminal.switchAccount st))
    ∧ (∀ (st : LoopState) (env : IterEnv),
        (auto_play_iter st env).2.freeze = true →
        ∃ g : GameStatus, env.status = some g
          ∧ g.totalClicksLimit ≤ g.currentClickedCount
          ∧ 8 * g.currentClickedCount < 7 * g.totalClicksLimit) := by
  constructor
  · intro st env g hs h0 hcap
    obtain ⟨es, er, et⟩ := env
    have hs' : es = some g := hs
    subst hs'
    have hrc : refillCheck g.currentClickedCount g.totalClicksLimit = true := by
      simp only [refillCheck, decide_eq_true_eq]
      omega
    cases er <;> simp [auto_play_iter, hrc]
  · intro st env h
    obtain ⟨es, er, et⟩ := env
    cases es with
    | none =>
      exfalso
      by_cases h5 : max_consecutive_failures ≤ st.consecutive_failures + 1 <;>
        simp [auto_play_iter, h5] at h
    | some g =>
      by_cases hrc : refillCheck g.currentClickedCount g.totalClicksLimit = true
      · exfalso
        cases er <;> simp [auto_play_iter, hrc] at h
      · by_cases hcap : g.totalClicksLimit ≤ g.currentClickedCount
        · refine ⟨g, rfl, hcap, ?_⟩
          simp only [refillCheck, decide_eq_true_eq] at hrc
          omega
        · exfalso
          cases et with
          | some res => simp [auto_play_iter, hrc, hcap] at h
          | none =>
            by_cases h5 : max_consecutive_failures ≤ st.consecutive_failures + 1 <;>
              simp [auto_play_iter, hrc, hcap, h5] at h

/-- Witness for the amended C2: at clicks 100 of limit 100 with a
failing refill, the iteration reports a refill attempt, no freeze, and
stops to switch account. -/
theorem claim2_witness :
    (auto_play_iter ⟨0, 0, UserStats.init "w"⟩
        ⟨some ⟨100, 100⟩, false, none⟩).2.refill = true
    ∧ (auto_play_iter ⟨0, 0, UserStats.init "w"⟩
        ⟨some ⟨100, 100⟩, false, none⟩).2.freeze = false
    ∧ (auto_play_iter ⟨0, 0, UserStats.init "w"⟩
        ⟨some ⟨100, 100⟩, false, none⟩).1
        = (if (⟨some ⟨100, 100⟩, false, none⟩ : IterEnv).refill
           then IterOutcome.continueLoop ⟨0, 0, UserStats.init "w"⟩
           else IterOutcome.stopped Terminal.switchAccount
                  ⟨0, 0, UserStats.init "w"⟩) :=
  claim2_amended_cap_takes_refill_branch.1 ⟨0, 0, UserStats.init "w"⟩
    ⟨some ⟨100, 100⟩, false, none⟩ ⟨100, 100⟩ rfl (by decide) (by decide)

/-- C3 counterexample: a successful tap whose response reports fewer
clicks than the preceding status fetch decreases `taps_performed`: from
100 it drops to 80 when the status said 50 clicks and the tap response
says 30. -/
theorem claim3_counterexample :
    (auto_play_iter ⟨0, 0, ⟨"u", none, none, 0, 0, 0, 100⟩⟩
        ⟨some ⟨50, 100⟩, false, some ⟨30, 100⟩⟩).1.state.stats.taps_performed = 80
    ∧ (80 : Int) < 100 := by
  decide

/-- C3 amended: `damage_upgrades`, `limit_upgrades` and
`missions_completed` are monotonically non-decreasing across every
operation that touches the stats record; `taps_performed` is unchanged
by the upgrade and mission operations and is non-decreasing across
auto-play iterations only under the additional assumption that every
successful tap response reports at least as many clicks as the status
fetched in the same iteration — a response reporting fewer clicks
strictly decreases it. -/
theorem claim3_amended_counter_monotonicity :
    (∀ (t : String) (r : ApiResponse PurchaseBody) (stats : UserStats),
        stats.damage_upgrades ≤ ((upgrade_tapping t r stats).2).damage_upgrades
        ∧ stats.limit_upgrades ≤ ((upgrade_tapping t r stats).2).limit_upgrades
        ∧ ((upgrade_tapping t r stats).2).missions_completed
            = stats.missions_completed
        ∧ ((upgrade_tapping t r stats).2).taps_performed = stats.taps_performed)
    ∧ (∀ (m : Mission) (env : MissionEnv) (stats : UserStats),
        stats.missions_completed
            ≤ ((process_missions_step m env stats).2).missions_completed
        ∧ ((process_missions_step m env stats).2).damage_upgrades
            = stats.damage_upgrades
        ∧ ((process_missions_step m env stats).2).limit_upgrades
            = stats.limit_upgrades
        ∧ ((process_missions_step m env stats).2).taps_performed
            = stats.taps_performed)
    ∧ (∀ (r : ApiResponse PurchaseBody) (stats : UserStats),
        ((upgrade_level r stats).2).damage_upgrades = stats.damage_upgrades
        ∧ ((upgrade_level r stats).2).limit_upgrades = stats.limit_upgrades
        ∧ ((upgrade_level r stats).2).missions_completed
            = stats.missions_completed
        ∧ ((upgrade_level r stats).2).taps_performed = stats.taps_performed)
    ∧ (∀ (st : LoopState) (env : IterEnv),
        ((auto_play_iter st env).1.state.stats).damage_upgrades
            = st.stats.damage_upgrades
        ∧ ((auto_play_iter st env).1.state.stats).limit_upgrades
            = st.stats.limit_upgrades
        ∧ ((auto_play_iter st env).1.state.stats).missions_completed
            = st.stats.missions_completed)
    ∧ (∀ (st : LoopState) (env : IterEnv),
        (∀ g res : GameStatus, env.status = some g → env.tap = some res →
            g.currentClickedCount ≤ res.currentClickedCount) →
        st.stats.taps_performed
            ≤ ((auto_play_iter st env).1.state.stats).taps_performed) := by
  refine ⟨?_, ?_, ?_, ?_, ?_⟩
  · intro t r stats
    cases r with
    | exn => exact ⟨le_refl _, le_refl _, rfl, rfl⟩
    | ok status body =>
      by_cases h : (status == 201) = true
      · by_cases ht : (t == "Damage") = true
        · refine ⟨?_, ?_, ?_, ?_⟩ <;> (simp [upgrade_tapping, h, ht]; try omega)
        · by_cases hl : (t == "Limit energy") = true
          · refine ⟨?_, ?_, ?_, ?_⟩ <;>
              (simp [upgrade_tapping, h, ht, hl]; try omega)
          · refine ⟨?_, ?_, ?_, ?_⟩ <;>
              (simp [upgrade_tapping, h, ht, hl]; try omega)
      · refine ⟨?_, ?_, ?_, ?_⟩ <;> (simp [upgrade_tapping, h]; try omega)
  · intro m env stats
    by_cases hp : m.completedPercent = "100"
    · refine ⟨?_, ?_, ?_, ?_⟩ <;> (simp [process_missions_step, hp]; try omega)
    · by_cases hc : complete_mission env.complete = true
      · by_cases hcl : claim_mission_reward env.claim = true
        · refine ⟨?_, ?_, ?_, ?_⟩ <;>
            (simp [process_missions_step, hp, hc, hcl]; try omega)
        · simp only [Bool.not_eq_true] at hcl
          refine ⟨?_, ?_, ?_, ?_⟩ <;>
            (simp [process_missions_step, hp, hc, hcl]; try omega)
      · simp only [Bool.not_eq_true] at hc
        refine ⟨?_, ?_, ?_, ?_⟩ <;>
          (simp [process_missions_step, hp, hc]; try omega)
  · intro r stats
    cases r with
    | exn => exact ⟨rfl, rfl, rfl, rfl⟩
    | ok status body =>
      by_cases h : (status == 201) = true
      · refine ⟨?_, ?_, ?_, ?_⟩ <;> simp [upgrade_level, h]
      · by_cases h402 : (status == 402) = true
        · refine ⟨?_, ?_, ?_, ?_⟩ <;> simp [upgrade_level, h, h402]
        · refine ⟨?_, ?_, ?_, ?_⟩ <;> simp [upgrade_level, h, h402]
  · intro st env
    rcases auto_play_iter_stats_cases st env with h | ⟨g, res, _, _, h⟩ <;>
      simp [h]
  · intro st env hmono
    rcases auto_play_iter_stats_cases st env with h | ⟨g, res, hg, hres, h⟩
    · simp [h]
    · have := hmono g res hg hres
      simp only [h]
      omega

/-- Witness for the amended C3: a tap from 10 clicks to 25 clicks does
not decrease `taps_performed`. -/
theorem claim3_witness :
    (⟨0, 0, UserStats.init "w"⟩ : LoopState).stats.taps_performed
      ≤ ((auto_play_iter ⟨0, 0, UserStats.init "w"⟩
            ⟨some ⟨10, 100⟩, false, some ⟨25, 100⟩⟩).1.state.stats).taps_performed :=
  claim3_amended_counter_monotonicity.2.2.2.2 ⟨0, 0, UserStats.init "w"⟩
    ⟨some ⟨10, 100⟩, false, some ⟨25, 100⟩⟩
    (by intro g res hg hres; cases hg; cases hres; decide)

/-- C4: status-fetch failures and tap-submission failures increment the
one shared `consecutive_failures` counter, with the loop stopping in
the failure terminal exactly when the incremented counter reaches
`max_consecutive_failures` (5); a successful tap resets the counter to
0; a successful status fetch that leads to no tap attempt (refill or
freeze branch) leaves the counter unchanged; once an iteration stops,
the run consumes none of the remaining environments — no further remote
calls are performed; and in particular, from a fresh counter, five
consecutive failures terminate the run in the failure state regardless
of what follows. -/
theorem claim4_shared_failure_counter :
    (∀ (st : LoopState) (er : Bool) (et : Option GameStatus),
        (auto_play_iter st ⟨none, er, et⟩).1.state.consecutive_failures
            = st.consecutive_failures + 1
        ∧ (auto_play_iter st ⟨none, er, et⟩).1.terminal
            = (if max_consecutive_failures ≤ st.consecutive_failures + 1
               then some Terminal.stoppedFailure else none))
    ∧ (∀ (st : LoopState) (env : IterEnv) (g : GameStatus),
        env.status = some g →
        refillCheck g.currentClickedCount g.totalClicksLimit = false →
        g.currentClickedCount < g.totalClicksLimit →
        env.tap = none →
        (auto_play_iter st env).1.state.consecutive_failures
            = st.consecutive_failures + 1
        ∧ (auto_play_iter st env).1.terminal
            = (if max_consecutive_failures ≤ st.consecutive_failures + 1
               then some Terminal.stoppedFailure else none))
    ∧ (∀ (st : LoopState) (env : IterEnv) (g res : GameStatus),
        env.status = some g →
        refillCheck g.currentClickedCount g.totalClicksLimit = false →
        g.currentClickedCount < g.totalClicksLimit →
        env.tap = some res →
        (auto_play_iter st env).1.state.consecutive_failures = 0
        ∧ (auto_play_iter st env).1.terminal = none)
    ∧ (∀ (st : LoopState) (env : IterEnv) (g : GameStatus),
        env.status = some g →
        (auto_play_iter st env).2.tap = false →
        (auto_play_iter st env).1.state.consecutive_failures
            = st.consecutive_failures)
    ∧ (∀ (st : LoopState) (env : IterEnv) (t : Terminal) (st' : LoopState)
          (rest : List IterEnv),
        (auto_play_iter st env).1 = IterOutcome.stopped t st' →
        auto_play_run st (env :: rest) = (st', some t))
    ∧ (∀ (stats : UserStats) (rest : List IterEnv),
        (auto_play_run ⟨0, 0, stats⟩
            (List.replicate 5 ⟨none, false, none⟩ ++ rest)).2
          = some Terminal.stoppedFailure) := by
  refine ⟨?_, ?_, ?_, ?_, ?_, ?_⟩
  · intro st er et
    by_cases h5 : max_consecutive_failures ≤ st.consecutive_failures + 1 <;>
      simp [auto_play_iter, IterOutcome.state, IterOutcome.terminal, h5]
  · intro st env g hs hrc hlt htap
    obtain ⟨es, er, et⟩ := env
    have hs' : es = some g := hs
    subst hs'
    have htap' : et = none := htap
    subst htap'
    have hcap : ¬ (g.totalClicksLimit ≤ g.currentClickedCount) := by omega
    by_cases h5 : max_consecutive_failures ≤ st.consecutive_failures + 1 <;>
      simp [auto_play_iter, IterOutcome.state, IterOutcome.terminal, hrc, hcap, h5]
  · intro st env g res hs hrc hlt htap
    obtain ⟨es, er, et⟩ := env
    have hs' : es = some g := hs
    subst hs'
    have htap' : et = some res := htap
    subst htap'
    have hcap : ¬ (g.totalClicksLimit ≤ g.currentClickedCount) := by omega
    simp [auto_play_iter, IterOutcome.state, IterOutcome.terminal, hrc, hcap]
  · intro st env g hs hnotap
    obtain ⟨es, er, et⟩ := env
    have hs' : es = some g := hs
    subst hs'
    by_cases hrc : refillCheck g.currentClickedCount g.totalClicksLimit = true
    · cases er <;> simp [auto_play_iter, IterOutcome.state, hrc]
    · by_cases hcap : g.totalClicksLimit ≤ g.currentClickedCount
      · simp [auto_play_iter, IterOutcome.state, hrc, hcap]
      · exfalso
        revert hnotap
        cases et with
        | some res => simp [auto_play_iter, hrc, hcap]
        | none =>
          by_cases h5 : max_consecutive_failures ≤ st.consecutive_failures + 1 <;>
            simp [auto_play_iter, hrc, hcap, h5]
  · intro st env t st' rest h
    simp [auto_play_run, h]
  · intro stats rest
    rfl

/-- Witness for C4: with 3 prior consecutive failures, a successful tap
(status 10 of 100, tap response 25) resets the counter to 0 and the
loop does not stop. -/
theorem claim4_witness :
    (auto_play_iter ⟨0, 3, UserStats.init "w"⟩
        ⟨some ⟨10, 100⟩, false, some ⟨25, 100⟩⟩).1.state.consecutive_failures = 0
    ∧ (auto_play_iter ⟨0, 3, UserStats.init "w"⟩
        ⟨some ⟨10, 100⟩, false, some ⟨25, 100⟩⟩).1.terminal = none :=
  claim4_shared_failure_counter.2.2.1 ⟨0, 3, UserStats.init "w"⟩
    ⟨some ⟨10, 100⟩, false, some ⟨25, 100⟩⟩ ⟨10, 100⟩ ⟨25, 100⟩
    rfl (by decide) (by decide) rfl

/-- C5: a refill is attempted in an iteration with a successful status
fetch exactly when `current_clicks ≥ total_limit * 0.875` (so at 88 of
100, not at 80 of 100); on refill success the loop continues without
tapping, on refill failure it stops to switch accounts; and
`use_refill_boost` fails when the boost listing holds no boost of type
`REFILL_ENERGY` with `available > 0`. -/
theorem claim5_refill_threshold :
    (∀ (st : LoopState) (env : IterEnv) (g : GameStatus),
        env.status = some g →
        (auto_play_iter st env).2.refill
            = refillCheck g.currentClickedCount g.totalClicksLimit)
    ∧ (∀ current_clicks total_limit : Int,
        refillCheck current_clicks total_limit = true
          ↔ ((current_clicks : ℚ) ≥ (total_limit : ℚ) * (0.875 : ℚ)))
    ∧ (refillCheck 88 100 = true ∧ refillCheck 80 100 = false)
    ∧ (∀ (st : LoopState) (env : IterEnv) (g : GameStatus),
        env.status = some g →
        refillCheck g.currentClickedCount g.totalClicksLimit = true →
        env.refill = true →
        (auto_play_iter st env).1 = IterOutcome.continueLoop st
        ∧ (auto_play_iter st env).2.tap = false)
    ∧ (∀ (st : LoopState) (env : IterEnv) (g : GameStatus),
        env.status = some g →
        refillCheck g.currentClickedCount g.totalClicksLimit = true →
        env.refill = false →
        (auto_play_iter st env).1
            = IterOutcome.stopped Terminal.switchAccount st)
    ∧ (∀ (st : LoopState) (env : IterEnv) (g : GameStatus),
        env.status = some g →
        (auto_play_iter st env).2.tap = true →
        refillCheck g.currentClickedCount g.totalClicksLimit = false)
    ∧ (∀ (listR : ApiResponse (List Boost)) (buyR : ApiResponse Unit),
        (∀ b ∈ get_boosts listR, ¬ (b.type = "REFILL_ENERGY" ∧ 0 < b.available)) →
        use_refill_boost listR buyR = false) := by
  refine ⟨?_, refillCheck_iff_rat, by decide, ?_, ?_, ?_, ?_⟩
  · intro st env g hs
    obtain ⟨es, er, et⟩ := env
    have hs' : es = some g := hs
    subst hs'
    by_cases hrc : refillCheck g.currentClickedCount g.totalClicksLimit = true
    · cases er <;> simp [auto_play_iter, hrc]
    · simp only [Bool.not_eq_true] at hrc
      by_cases hcap : g.totalClicksLimit ≤ g.currentClickedCount
      · simp [auto_play_iter, hrc, hcap]
      · cases et with
        | some res => simp [auto_play_iter, hrc, hcap]
        | none =>
          by_cases h5 : max_consecutive_failures ≤ st.consecutive_failures + 1 <;>
            simp [auto_play_iter, hrc, hcap, h5]
  · intro st env g hs hrc her
    obtain ⟨es, er, et⟩ := env
    have hs' : es = some g := hs
    subst hs'
    have her' : er = true := her
    subst her'
    simp [auto_play_iter, hrc]
  · intro st env g hs hrc her
    obtain ⟨es, er, et⟩ := env
    have hs' : es = some g := hs
    subst hs'
    have her' : er = false := her
    subst her'
    simp [auto_play_iter, hrc]
  · intro st env g hs htap
    obtain ⟨es, er, et⟩ := env
    have hs' : es = some g := hs
    subst hs'
    by_cases hrc : refillCheck g.currentClickedCount g.totalClicksLimit = true
    · exfalso
      revert htap
      cases er <;> simp [auto_play_iter, hrc]
    · simpa using hrc
  · intro listR buyR hnone
    have hfind : (get_boosts listR).find?
        (fun b => b.type == "REFILL_ENERGY" && decide (0 < b.available)) = none := by
      rw [List.find?_eq_none]
      intro b hb
      have := hnone b hb
      simp only [Bool.and_eq_true, beq_iff_eq, decide_eq_true_eq, not_and]
      intro hty
      intro hav
      exact this ⟨hty, hav⟩
    simp [use_refill_boost, get_refill_boost, hfind]

/-- Witness for C5: at 88 clicks of limit 100 with a successful refill,
the iteration continues without tapping. -/
theorem claim5_witness :
    (auto_play_iter ⟨0, 0, UserStats.init "w"⟩
        ⟨some ⟨88, 100⟩, true, none⟩).1
        = IterOutcome.continueLoop ⟨0, 0, UserStats.init "w"⟩
    ∧ (auto_play_iter ⟨0, 0, UserStats.init "w"⟩
        ⟨some ⟨88, 100⟩, true, none⟩).2.tap = false :=
  claim5_refill_threshold.2.2.2.1 ⟨0, 0, UserStats.init "w"⟩
    ⟨some ⟨88, 100⟩, true, none⟩ ⟨88, 100⟩ rfl (by decide) rfl

/-- When every attempt of the window succeeds, the tapping-upgrade loop
makes and wins all of its iterations. -/
theorem tapping_loop_all_ok (t : String) (oracle : Nat → ApiResponse PurchaseBody) :
    ∀ (n i : Nat) (stats : UserStats),
      (∀ j, j < n → purchase_created (oracle (i + j)) = true) →
      (tapping_loop t oracle i n stats).1 = n
      ∧ (tapping_loop t oracle i n stats).2.1 = n := by
  intro n
  induction n with
  | zero => intro i stats _; exact ⟨rfl, rfl⟩
  | succ m ih =>
    intro i stats hok
    have h0 : (upgrade_tapping t (oracle i) stats).1.1 = true := by
      rw [upgrade_tapping_success]
      have := hok 0 (Nat.succ_pos m)
      simpa using this
    have hok' : ∀ j, j < m → purchase_created (oracle (i + 1 + j)) = true := by
      intro j hj
      have h2 := hok (j + 1) (Nat.succ_lt_succ hj)
      rw [show i + (j + 1) = i + 1 + j by omega] at h2
      exact h2
    have key := ih (i + 1) ((upgrade_tapping t (oracle i) stats).2) hok'
    simp [tapping_loop, h0, key.1, key.2]

/-- When the first failed attempt of the window is the one at offset
`k` (0-indexed, within the requested count), the tapping-upgrade loop
records exactly `k` successes and makes exactly `k + 1` attempts. -/
theorem tapping_loop_first_fail (t : String) (oracle : Nat → ApiResponse PurchaseBody) :
    ∀ (k n i : Nat) (stats : UserStats),
      k < n →
      (∀ j, j < k → purchase_created (oracle (i + j)) = true) →
      purchase_created (oracle (i + k)) = false →
      (tapping_loop t oracle i n stats).1 = k
      ∧ (tapping_loop t oracle i n stats).2.1 = k + 1 := by
  intro k
  induction k with
  | zero =>
    intro n i stats hkn hok hfail
    obtain ⟨m, rfl⟩ : ∃ m, n = m + 1 := ⟨n - 1, by omega⟩
    have h0 : (upgrade_tapping t (oracle i) stats).1.1 = false := by
      rw [upgrade_tapping_success]
      simpa using hfail
    simp [tapping_loop, h0]
  | succ k ih =>
    intro n i stats hkn hok hfail
    obtain ⟨m, rfl⟩ : ∃ m, n = m + 1 := ⟨n - 1, by omega⟩
    have h0 : (upgrade_tapping t (oracle i) stats).1.1 = true := by
      rw [upgrade_tapping_success]
      have := hok 0 (Nat.succ_pos k)
      simpa using this
    have hok' : ∀ j, j < k → purchase_created (oracle (i + 1 + j)) = true := by
      intro j hj
      have h2 := hok (j + 1) (Nat.succ_lt_succ hj)
      rw [show i + (j + 1) = i + 1 + j by omega] at h2
      exact h2
    have hfail' : purchase_created (oracle (i + 1 + k)) = false := by
      rw [show i + 1 + k = i + (k + 1) by omega]
      exact hfail
    have key := ih m (i + 1) ((upgrade_tapping t (oracle i) stats).2)
      (by omega) hok' hfail'
    simp [tapping_loop, h0, key.1, key.2]

/-- When every attempt of the window succeeds, the level-upgrade loop
makes and wins all of its iterations. -/
theorem level_loop_all_ok (oracle : Nat → ApiResponse PurchaseBody) :
    ∀ (n i : Nat) (stats : UserStats),
      (∀ j, j < n → purchase_created (oracle (i + j)) = true) →
      (level_loop oracle i n stats).1 = n
      ∧ (level_loop oracle i n stats).2.1 = n := by
  intro n
  induction n with
  | zero => intro i stats _; exact ⟨rfl, rfl⟩
  | succ m ih =>
    intro i stats hok
    have h0 : (upgrade_level (oracle i) stats).1.1 = true := by
      rw [upgrade_level_success]
      have := hok 0 (Nat.succ_pos m)
      simpa using this
    have hok' : ∀ j, j < m → purchase_created (oracle (i + 1 + j)) = true := by
      intro j hj
      have h2 := hok (j + 1) (Nat.succ_lt_succ hj)
      rw [show i + (j + 1) = i + 1 + j by omega] at h2
      exact h2
    have key := ih (i + 1) (record_final_level (upgrade_level (oracle i) stats)) hok'
    simp [level_loop, h0, key.1, key.2]

/-- When the first failed attempt of the window is the one at offset
`k` (0-indexed, within the requested count), the level-upgrade loop
records exactly `k` successes and makes exactly `k + 1` attempts. -/
theorem level_loop_first_fail (oracle : Nat → ApiResponse PurchaseBody) :
    ∀ (k n i : Nat) (stats : UserStats),
      k < n →
      (∀ j, j < k → purchase_created (oracle (i + j)) = true) →
      purchase_created (oracle (i + k)) = false →
      (level_loop oracle i n stats).1 = k
      ∧ (level_loop oracle i n stats).2.1 = k + 1 := by
  intro k
  induction k with
  | zero =>
    intro n i stats hkn hok hfail
    obtain ⟨m, rfl⟩ : ∃ m, n = m + 1 := ⟨n - 1, by omega⟩
    have h0 : (upgrade_level (oracle i) stats).1.1 = false := by
      rw [upgrade_level_success]
      simpa using hfail
    simp [level_loop, h0]
  | succ k ih =>
    intro n i stats hkn hok hfail
    obtain ⟨m, rfl⟩ : ∃ m, n = m + 1 := ⟨n - 1, by omega⟩
    have h0 : (upgrade_level (oracle i) stats).1.1 = true := by
      rw [upgrade_level_success]
      have := hok 0 (Nat.succ_pos k)
      simpa using this
    have hok' : ∀ j, j < k → purchase_created (oracle (i + 1 + j)) = true := by
      intro j hj
      have h2 := hok (j + 1) (Nat.succ_lt_succ hj)
      rw [show i + (j + 1) = i + 1 + j by omega] at h2
      exact h2
    have hfail' : purchase_created (oracle (i + 1 + k)) = false := by
      rw [show i + 1 + k = i + (k + 1) by omega]
      exact hfail
    have key := ih m (i + 1) (record_final_level (upgrade_level (oracle i) stats))
      (by omega) hok' hfail'
    simp [level_loop, h0, key.1, key.2]

/-- C7: for each upgrade loop (level upgrade, and the tapping-upgrade
loops for any `upgrade_type`) with requested count `N`: if the first
failed purchase attempt is the `k`-th (1-indexed, `k ≤ N`), exactly
`k - 1` successes are recorded and exactly `k` attempts are made — no
attempt after the `k`-th; and when all `N` attempts succeed, exactly
`N` successes are recorded over exactly `N` attempts. -/
theorem claim7_upgrade_loops_stop_on_first_failure :
    (∀ (t : String) (oracle : Nat → ApiResponse PurchaseBody) (k N : Nat)
        (stats : UserStats),
        1 ≤ k → k ≤ N →
        (∀ j, j < k - 1 → purchase_created (oracle j) = true) →
        purchase_created (oracle (k - 1)) = false →
        (tapping_loop t oracle 0 N stats).1 = k - 1
        ∧ (tapping_loop t oracle 0 N stats).2.1 = k)
    ∧ (∀ (t : String) (oracle : Nat → ApiResponse PurchaseBody) (N : Nat)
        (stats : UserStats),
        (∀ j, j < N → purchase_created (oracle j) = true) →
        (tapping_loop t oracle 0 N stats).1 = N
        ∧ (tapping_loop t oracle 0 N stats).2.1 = N)
    ∧ (∀ (oracle : Nat → ApiResponse PurchaseBody) (k N : Nat)
        (stats : UserStats),
        1 ≤ k → k ≤ N →
        (∀ j, j < k - 1 → purchase_created (oracle j) = true) →
        purchase_created (oracle (k - 1)) = false →
        (level_loop oracle 0 N stats).1 = k - 1
        ∧ (level_loop oracle 0 N stats).2.1 = k)
    ∧ (∀ (oracle : Nat → ApiResponse PurchaseBody) (N : Nat)
        (stats : UserStats),
        (∀ j, j < N → purchase_created (oracle j) = true) →
        (level_loop oracle 0 N stats).1 = N
        ∧ (level_loop oracle 0 N stats).2.1 = N) := by
  refine ⟨?_, ?_, ?_, ?_⟩
  · intro t oracle k N stats h1 hN hok hfail
    have key := tapping_loop_first_fail t oracle (k - 1) N 0 stats (by omega)
      (by intro j hj; rw [Nat.zero_add]; exact hok j hj)
      (by rw [Nat.zero_add]; exact hfail)
    obtain ⟨k1, k2⟩ := key
    constructor
    · exact k1
    · omega
  · intro t oracle N stats hok
    exact tapping_loop_all_ok t oracle N 0 stats
      (by intro j hj; rw [Nat.zero_add]; exact hok j hj)
  · intro oracle k N stats h1 hN hok hfail
    have key := level_loop_first_fail oracle (k - 1) N 0 stats (by omega)
      (by intro j hj; rw [Nat.zero_add]; exact hok j hj)
      (by rw [Nat.zero_add]; exact hfail)
    obtain ⟨k1, k2⟩ := key
    constructor
    · exact k1
    · omega
  · intro oracle N stats hok
    exact level_loop_all_ok oracle N 0 stats
      (by intro j hj; rw [Nat.zero_add]; exact hok j hj)

/-- Witness for C7: with a requested count of 5 and purchases that
succeed twice (status 201) and then fail with 402 on the third attempt,
the damage-upgrade loop records 2 successes over 3 attempts. -/
theorem claim7_witness :
    (tapping_loop "Damage"
        (fun j => if j < 2 then ApiResponse.ok 201 ⟨5⟩ else ApiResponse.ok 402 ⟨0⟩)
        0 5 (UserStats.init "w")).1 = 2
    ∧ (tapping_loop "Damage"
        (fun j => if j < 2 then ApiResponse.ok 201 ⟨5⟩ else ApiResponse.ok 402 ⟨0⟩)
        0 5 (UserStats.init "w")).2.1 = 3 :=
  claim7_upgrade_loops_stop_on_first_failure.1 "Damage"
    (fun j => if j < 2 then ApiResponse.ok 201 ⟨5⟩ else ApiResponse.ok 402 ⟨0⟩)
    3 5 (UserStats.init "w") (by decide) (by decide) (by decide) (by decide)

end Notai
